import Mathlib

/-!
Verification of the registration lifecycle and RSVP state machine of the
utesca-backend repository (src/domains/events/registrations).

The embedding translates the Python source into Lean definitions:
times are integers (seconds, naive timestamps interpreted as UTC, as the
source does via `replace(tzinfo=timezone.utc)`); the `timedelta(hours=24)`
of the RSVP cutoff is 86400 seconds.  Database rows are records; the
conditional UPDATE queries of the repository layer become functions that
check the same status conditions and return `Option`.  HTTP error
responses (`HTTPException`) become constructors of `ServiceError`.
The `datetime.now(timezone.utc)` calls are passed in as an explicit
`now` parameter.  Store lookups by id are modelled by passing the fetched
row directly (a missing row raises 404 in the source; no claim below
concerns a missing row).  Every repository function funnels the rows it
returns through `RegistrationResponse.model_validate`, whose status
Literal (models.py line 12) lacks not_attending: that parse, and the
ValidationError it raises on such rows, is modelled explicitly
(`model_validate_registration`) and threaded through the fetches and
updates of the service operations.
-/

/-- Registration status values as used by the service and repository layer
(service.py / repository.py): the five statuses that are stored and
compared against.  `models.py` line 12 declares the response-model type
`RegistrationStatus = Literal["submitted", "accepted", "rejected",
"confirmed"]`; membership in that Literal is modelled separately by
`registrationStatusLiteral` below. -/
inductive RegStatus where
  | submitted
  | accepted
  | rejected
  | confirmed
  | notAttending
  deriving DecidableEq, Repr

/-- models.py line 12: `RegistrationStatus = Literal["submitted", "accepted",
"rejected", "confirmed"]`.  Pydantic validates the `status` field of every
`RegistrationResponse.model_validate` call against this Literal; a value
outside it is rejected.  Note `not_attending` is absent. -/
def registrationStatusLiteral : RegStatus → Bool
  | .submitted => true
  | .accepted => true
  | .rejected => true
  | .confirmed => true
  | .notAttending => false

/-!
Form schema validation (service.py `validate_form_data` and its helpers).
Form values are the JSON values the source inspects with `isinstance`:
strings, lists, numbers, booleans.  A key absent from the `form_data`
dict yields Python `None` through `dict.get`, modelled by `Option`.
-/

/-- A JSON value appearing in submitted form data. -/
inductive FormValue where
  | str (s : String)
  | list (xs : List String)
  | int (n : Int)
  | bool (b : Bool)
  deriving DecidableEq, Repr

/-- Submitted form data: the `form_data` dict (keys are field ids). -/
abbrev FormData := List (String × FormValue)

/-- `form_data.get(field_id)`: first value stored under the key, None when
absent. -/
def FormData.get (fd : FormData) (key : String) : Option FormValue :=
  (fd.find? (fun kv => kv.fst = key)).map (·.snd)

/-- Python truthiness of a form value or its absence (`not value`):
None, empty string, empty list, zero and False are falsy. -/
def pyFalsy : Option FormValue → Bool
  | none => true
  | some (.str s) => s.isEmpty
  | some (.list xs) => xs.isEmpty
  | some (.int n) => n = 0
  | some (.bool b) => !b

/-- Tokens of the regex fragment the embedding covers: literal characters
and the `.` metacharacter (which in Python matches any character except a
newline).  Patterns are token lists; this fragment is enough to express
the anchoring difference between `re.match` and `re.search`. -/
inductive RegexToken where
  | lit (c : Char)
  | dot
  deriving DecidableEq, Repr

/-- One token against one character. -/
def tokMatch : RegexToken → Char → Bool
  | .lit c, d => c = d
  | .dot, d => d ≠ '\n'

/-- The pattern consumes a prefix of the character list. -/
def reMatchL : List RegexToken → List Char → Bool
  | [], _ => true
  | _ :: _, [] => false
  | t :: ts, c :: cs => tokMatch t c && reMatchL ts cs

/-- Python `re.match(pattern, value)` truthiness: the pattern must match
at the START of the string (this is what `_validate_text` calls). -/
def reMatch (p : List RegexToken) (s : String) : Bool :=
  reMatchL p s.data

/-- Helper scanning every suffix. -/
def reSearchL (p : List RegexToken) : List Char → Bool
  | [] => reMatchL p []
  | c :: cs => reMatchL p (c :: cs) || reSearchL p cs

/-- Modelled from the spec: "value matches validation.pattern (if set, as
a full regex search)" — Python `re.search` truthiness, a match anywhere
in the string suffices.  This is the behaviour the spec ascribes to the
pattern check; the source calls `re.match` (see `reMatch`).  Defined only
to compare against the source behaviour. -/
def reSearchSpec (p : List RegexToken) (s : String) : Bool :=
  reSearchL p s.data

/-- The `validation` object of a field definition: the keys
`_validate_text` and `_validate_files` read.  `pattern` is a token list;
`none` models an absent key.  (Python reads these with `.get`, so absent
keys are None.) -/
structure Validation where
  minLength : Option Nat := none
  maxLength : Option Nat := none
  pattern : Option (List RegexToken) := none
  maxSize : Option Nat := none
  allowedTypes : Option (List String) := none
  deriving DecidableEq, Repr

/-- A field definition of the registration form schema.  `ftype` is the
`type` key (dispatch is on strings in the source); `label` defaults to
the field id in error messages (`field.get("label", field.get("id"))`);
`options` is `field.get("options") or []`. -/
structure FieldDef where
  id : String
  ftype : String
  required : Bool := false
  label : Option String := none
  options : List String := []
  validation : Validation := {}
  deriving DecidableEq, Repr

/-- One entry of the error list: `{"field": ..., "message": ...}`. -/
structure VError where
  field : String
  message : String
  deriving DecidableEq, Repr

/-- File metadata for a registration upload (models.py `FileMeta`, the
fields `_validate_files` reads; storage bookkeeping fields elided). -/
structure FileMeta where
  fieldName : String
  fileSize : Nat
  mimeType : String
  deriving DecidableEq, Repr

/-- Label used in error messages. -/
def FieldDef.msgLabel (f : FieldDef) : String :=
  f.label.getD f.id

/-- service.py `_validate_text`: value must be a string; then the
minLength, maxLength and pattern checks each append their own error.
The pattern check is `if pattern and not re.match(pattern, value)` —
an absent or empty (falsy) pattern is skipped, and the match is anchored
at the start of the value. -/
def validate_text (f : FieldDef) (value : Option FormValue) : List VError :=
  match value with
  | some (.str s) =>
    (match f.validation.minLength with
     | some minLen =>
       if s.length < minLen then
         [⟨f.id, f.msgLabel ++ " must be at least " ++ toString minLen ++ " characters"⟩]
       else []
     | none => []) ++
    (match f.validation.maxLength with
     | some maxLen =>
       if s.length > maxLen then
         [⟨f.id, f.msgLabel ++ " must be at most " ++ toString maxLen ++ " characters"⟩]
       else []
     | none => []) ++
    (match f.validation.pattern with
     | some p =>
       if p ≠ [] ∧ ¬ reMatch p s then
         [⟨f.id, f.msgLabel ++ " is in an invalid format"⟩]
       else []
     | none => [])
  | _ => [⟨f.id, f.msgLabel ++ " must be a string"⟩]

/-- service.py `_validate_choice` (select / radio): value must be a
string contained in options. -/
def validate_choice (f : FieldDef) (value : Option FormValue) : List VError :=
  match value with
  | some (.str s) =>
    if s ∈ f.options then []
    else [⟨f.id, f.msgLabel ++ " must be one of the allowed options"⟩]
  | _ => [⟨f.id, f.msgLabel ++ " must be a string"⟩]

/-- service.py `_validate_checkboxes`: value must be a list; any element
outside the options yields one aggregate error.  (List elements are
modelled as strings; the `isinstance(v, str)` guard of the source is
subsumed.) -/
def validate_checkboxes (f : FieldDef) (value : Option FormValue) : List VError :=
  match value with
  | some (.list xs) =>
    if xs.filter (fun v => v ∉ f.options) ≠ [] then
      [⟨f.id, f.msgLabel ++ " has invalid selections"⟩]
    else []
  | _ => [⟨f.id, f.msgLabel ++ " must be an array"⟩]

/-- service.py `_validate_files`: per attached file, the maxSize check
(`is not None`) and the allowedTypes check (truthy list) each append
their own error. -/
def validate_files (f : FieldDef) (files : List FileMeta) : List VError :=
  files.flatMap (fun fm =>
    (match f.validation.maxSize with
     | some maxSize =>
       if fm.fileSize > maxSize then
         [⟨f.id, f.msgLabel ++ " must be <= " ++ toString maxSize ++ " bytes"⟩]
       else []
     | none => []) ++
    (match f.validation.allowedTypes with
     | some allowed =>
       if allowed ≠ [] ∧ fm.mimeType ∉ allowed then
         [⟨f.id, f.msgLabel ++ " must be one of: " ++ String.intercalate ", " allowed⟩]
       else []
     | none => []))

/-- service.py `_is_missing_required`: a required file field is missing
when no files are attached; any other required field is missing when the
value is None, the empty string, or (checkbox) falsy. -/
def is_missing_required (ftype : String) (required : Bool) (value : Option FormValue)
    (files : List FileMeta) : Bool :=
  if !required then
    false
  else if ftype = "file" then
    files.isEmpty
  else
    value = none || value = some (.str "") || (ftype = "checkbox" && pyFalsy value)

/-- The per-field body of the loop in service.py `validate_form_data`:
missing-required check (one error, further checks skipped), then the
skip `if value is None and not files: continue`, then dispatch on the
field type (unknown types have no validator and are skipped). -/
def fieldErrors (formData : FormData) (filesByField : String → List FileMeta)
    (f : FieldDef) : List VError :=
  let value := formData.get f.id
  let files := filesByField f.id
  if is_missing_required f.ftype f.required value files then
    [⟨f.id, "This field is required"⟩]
  else if value = none ∧ files = [] then
    []
  else if f.ftype = "text" ∨ f.ftype = "textarea" then
    validate_text f value
  else if f.ftype = "select" ∨ f.ftype = "radio" then
    validate_choice f value
  else if f.ftype = "checkbox" then
    validate_checkboxes f value
  else if f.ftype = "file" then
    validate_files f files
  else
    []

/-- service.py `validate_form_data`: the fields are checked in schema
order and every field contributes its own errors (no short-circuit). -/
def validate_form_data (formData : FormData) (fields : List FieldDef)
    (filesByField : String → List FileMeta) : List VError :=
  fields.flatMap (fieldErrors formData filesByField)

/-- events/models.py `RegistrationFormSchema`: ordered field definitions
plus the auto_accept flag (default False). -/
structure RegistrationFormSchema where
  autoAccept : Bool := false
  fields : List FieldDef := []
  deriving DecidableEq, Repr

/-- Registration row (models.py `RegistrationBase`, the columns read or
written by the lifecycle operations; `rsvp_token`, `checked_in_*`,
`created_at`, `updated_at` are never touched by these operations and are
elided). -/
structure Registration where
  id : Nat
  eventId : Nat
  status : RegStatus
  submittedAt : Int
  reviewedBy : Option Nat := none
  reviewedAt : Option Int := none
  confirmedAt : Option Int := none
  deriving DecidableEq, Repr

/-- Event row (events/models.py `EventResponse`, the fields the
registration lifecycle reads). `status` is the event lifecycle string
(only "published" accepts registrations). -/
structure Event where
  id : Nat
  status : String
  dateTime : Int
  registrationDeadline : Option Int := none
  maxCapacity : Option Nat := none
  registrationFormSchema : Option RegistrationFormSchema := none
  deriving DecidableEq, Repr

/-- Error kinds: each constructor corresponds to one `HTTPException`
raise site of service.py (detail strings in comments).  `notFound` is 404
"Registration not found", `notAccessible` is 404 "Registration not found
or not accessible", `eventNotFound` is 404 "Event not found",
`invalidState` is 400 "Only submitted registrations can be
accepted/rejected", `eventPassed` is 400 "... event has already passed",
`cutoffPassed` is 400 "Cannot change RSVP - cutoff is 24 hours before
event", `notEligible` is 400 "Registration is not eligible for ...",
`persistenceFailure` is the 500 "Failed to ..." raised when the
conditional update touches no row; `validationError` is the pydantic
ValidationError that RegistrationResponse.model_validate raises when the
status of a fetched or returned row falls outside the models.py line 12
Literal — it escapes the service unhandled (HTTP 500). -/
inductive ServiceError where
  | notFound
  | notAccessible
  | eventNotFound
  | invalidState
  | eventPassed
  | cutoffPassed
  | notEligible
  | persistenceFailure
  | validationError
  deriving DecidableEq, Repr

/-- The `RegistrationResponse.model_validate(result.data[0])` call every
repository function performs on a row it returns: pydantic validates the
status against the Literal of models.py line 12 and raises ValidationError
(modelled as the error) when the status is outside it — in particular on
every not_attending row. -/
def model_validate_registration (r : Registration) : Except ServiceError Registration :=
  if registrationStatusLiteral r.status then .ok r else .error .validationError

/-- The query filter of repository.py `get_registration_public`:
`.in_("status", ["accepted", "confirmed", "not_attending"])` — a row whose
status is outside that set is filtered out of the result data. -/
def registration_public_query (r : Registration) : Option Registration :=
  if r.status = .accepted ∨ r.status = .confirmed ∨ r.status = .notAttending then
    some r
  else
    none

/-- repository.py `get_registration_public` (repository.py 128-143): the
status-filtered query, then `if not result.data: return None` (the 404
path upstream), then the RegistrationResponse parse of the row — whose
failure propagates as a raised ValidationError, since the Literal of
models.py line 12 lacks not_attending. -/
def get_registration_public (r : Registration) : Except ServiceError (Option Registration) :=
  match registration_public_query r with
  | none => .ok none
  | some row => (model_validate_registration row).map some

/-- repository.py `get_registration_by_id` (repository.py 47-57): fetch by
id with no status filter (the row is passed in; a missing row is the
unmodelled 404 path), then the RegistrationResponse parse — which raises
on a not_attending row. -/
def get_registration_by_id (r : Registration) : Except ServiceError Registration :=
  model_validate_registration r

/-- repository.py `update_status`: unconditional update by id, stamping
status, reviewed_by and reviewed_at.  The row exists (it was just
fetched), so the update always returns the updated row. -/
def update_status (r : Registration) (st : RegStatus) (reviewerId : Nat)
    (reviewedAt : Int) : Option Registration :=
  some { r with status := st, reviewedBy := some reviewerId, reviewedAt := some reviewedAt }

/-- repository.py `confirm_registration`: conditional update
`.eq("status", "accepted")`; sets status to confirmed and stamps
confirmed_at.  Returns none when the row is not currently accepted. -/
def confirm_registration (r : Registration) (confirmedAt : Int) : Option Registration :=
  if r.status = .accepted then
    some { r with status := .confirmed, confirmedAt := some confirmedAt }
  else
    none

/-- repository.py `set_not_attending`: conditional update
`.in_("status", ["accepted", "confirmed"])`; sets status to not_attending
and records the decline time in the confirmed_at column (deliberate field
reuse, see the source comment "Track when they declined"). -/
def set_not_attending (r : Registration) (declinedAt : Int) : Option Registration :=
  if r.status = .accepted ∨ r.status = .confirmed then
    some { r with status := .notAttending, confirmedAt := some declinedAt }
  else
    none

/-- service.py `_has_event_passed`: `now > event_dt`. -/
def has_event_passed (now eventDate : Int) : Bool :=
  now > eventDate

/-- service.py `_is_within_rsvp_cutoff`:
`cutoff_time = event_dt - timedelta(hours=24); return now >= cutoff_time`. -/
def is_within_rsvp_cutoff (now eventDate : Int) : Bool :=
  now ≥ eventDate - 86400

/-- service.py `accept_application`: fetch through
`get_registration_by_id` (the RegistrationResponse parse raises on a
not_attending row, before any status check; the missing-row 404 is not
modelled, the row is passed in), 400 invalidState unless status is
submitted, else transition to accepted stamping reviewer and time, the
updated row parsed on return.  The `Nat` counts underlying store
mutations. -/
def accept_application (r : Registration) (reviewerId : Nat) (now : Int) :
    Except ServiceError (Registration × Nat) :=
  match get_registration_by_id r with
  | .error err => .error err
  | .ok registration =>
    if registration.status ≠ .submitted then
      .error .invalidState
    else
      match update_status registration .accepted reviewerId now with
      | some updated =>
        match model_validate_registration updated with
        | .ok parsed => .ok (parsed, 1)
        | .error err => .error err
      | none => .error .persistenceFailure

/-- service.py `reject_application`: same shape as accept, transitioning
to rejected (both parses succeed on this path in practice: submitted and
rejected are inside the models.py Literal, unlike not_attending). -/
def reject_application (r : Registration) (reviewerId : Nat) (now : Int) :
    Except ServiceError (Registration × Nat) :=
  match get_registration_by_id r with
  | .error err => .error err
  | .ok registration =>
    if registration.status ≠ .submitted then
      .error .invalidState
    else
      match update_status registration .rejected reviewerId now with
      | some updated =>
        match model_validate_registration updated with
        | .ok parsed => .ok (parsed, 1)
        | .error err => .error err
      | none => .error .persistenceFailure

/-- service.py `rsvp_confirm`: public fetch (visibility filter plus the
RegistrationResponse parse, which raises on a not_attending row before
any further check) → event-passed check → cutoff check → idempotent
no-op when already confirmed → notEligible unless accepted → conditional
update, the updated row parsed on return (its status is confirmed, which
the Literal admits).  The `Nat` counts underlying store mutations (0 on
the idempotent path). -/
def rsvp_confirm (r : Registration) (e : Event) (now : Int) :
    Except ServiceError (Registration × Nat) :=
  match get_registration_public r with
  | .error err => .error err
  | .ok none => .error .notAccessible
  | .ok (some registration) =>
    if has_event_passed now e.dateTime then
      .error .eventPassed
    else if is_within_rsvp_cutoff now e.dateTime then
      .error .cutoffPassed
    else if registration.status = .confirmed then
      .ok (registration, 0)
    else if registration.status ≠ .accepted then
      .error .notEligible
    else
      match confirm_registration registration now with
      | some updated =>
        match model_validate_registration updated with
        | .ok parsed => .ok (parsed, 1)
        | .error err => .error err
      | none => .error .persistenceFailure

/-- service.py `rsvp_decline` at the service-logic level, the
RegistrationResponse parses of the repository elided: public query filter
→ capture previous_status before any changes → event-passed check →
cutoff check → idempotent no-op when already not_attending (returns the
unchanged row and the captured previous status) → notEligible unless
accepted or confirmed → conditional update.  Payload is the source triple
(registration, previous_status, event) plus the store-mutation count.
Every row this flow fetches idempotently or returns after the update has
status not_attending, which the models.py Literal rejects, so the elided
parses raise on exactly these values (`registrationStatusLiteral`); this
definition exhibits what the source computes before that parse, and the
updated row it yields is the row the UPDATE has left in the store.
`rsvp_decline_full` below is the same source function with the parses
included. -/
def rsvp_decline (r : Registration) (e : Event) (now : Int) :
    Except ServiceError ((Registration × RegStatus × Event) × Nat) :=
  match registration_public_query r with
  | none => .error .notAccessible
  | some registration =>
    let previousStatus := registration.status
    if has_event_passed now e.dateTime then
      .error .eventPassed
    else if is_within_rsvp_cutoff now e.dateTime then
      .error .cutoffPassed
    else if registration.status = .notAttending then
      .ok ((registration, previousStatus, e), 0)
    else if ¬ (registration.status = .accepted ∨ registration.status = .confirmed) then
      .error .notEligible
    else
      match set_not_attending registration now with
      | some updated => .ok ((updated, previousStatus, e), 1)
      | none => .error .persistenceFailure

/-- service.py `rsvp_decline` with the repository parses included: the
public fetch parse raises on an already-not_attending row before any
time check (so the idempotent branch, though written, is unreachable),
and the row returned by `set_not_attending` always has status
not_attending, so its parse raises after the UPDATE has already executed
— the store mutation that `rsvp_decline` exhibits is not observable in
this result, only the raised error (HTTP 500) is. -/
def rsvp_decline_full (r : Registration) (e : Event) (now : Int) :
    Except ServiceError ((Registration × RegStatus × Event) × Nat) :=
  match get_registration_public r with
  | .error err => .error err
  | .ok none => .error .notAccessible
  | .ok (some registration) =>
    let previousStatus := registration.status
    if has_event_passed now e.dateTime then
      .error .eventPassed
    else if is_within_rsvp_cutoff now e.dateTime then
      .error .cutoffPassed
    else if registration.status = .notAttending then
      .ok ((registration, previousStatus, e), 0)
    else if ¬ (registration.status = .accepted ∨ registration.status = .confirmed) then
      .error .notEligible
    else
      match set_not_attending registration now with
      | some updated =>
        match model_validate_registration updated with
        | .ok parsed => .ok ((parsed, previousStatus, e), 1)
        | .error err => .error err
      | none => .error .persistenceFailure

/-- One lifecycle or RSVP operation, with the inputs the caller supplies
at invocation time. -/
inductive LifecycleOp where
  | accept (reviewerId : Nat) (now : Int)
  | reject (reviewerId : Nat) (now : Int)
  | confirm (now : Int)
  | decline (now : Int)
  deriving DecidableEq, Repr

/-- Apply one operation to the stored registration: the store holds the
row the operation leaves behind.  Accept, reject and confirm mutate only
when they return ok (their parse failures occur before any UPDATE, and
the rows their UPDATEs produce parse fine), so the error arm keeps the
row.  Decline is tracked through `rsvp_decline`, whose ok row is what the
UPDATE leaves in the store even though the response parse then raises
(see `rsvp_decline_full`): the store state follows the pre-parse
result. -/
def applyOp (e : Event) (r : Registration) : LifecycleOp → Registration
  | .accept reviewerId now =>
    match accept_application r reviewerId now with
    | .ok (updated, _) => updated
    | .error _ => r
  | .reject reviewerId now =>
    match reject_application r reviewerId now with
    | .ok (updated, _) => updated
    | .error _ => r
  | .confirm now =>
    match rsvp_confirm r e now with
    | .ok (updated, _) => updated
    | .error _ => r
  | .decline now =>
    match rsvp_decline r e now with
    | .ok ((updated, _, _), _) => updated
    | .error _ => r

/-- Apply a sequence of operations left to right. -/
def applyOps (e : Event) (r : Registration) (ops : List LifecycleOp) : Registration :=
  ops.foldl (applyOp e) r

/-- A status is terminal when it is rejected or not_attending. -/
def terminalStatus (s : RegStatus) : Prop :=
  s = .rejected ∨ s = .notAttending

/-- Error kinds raised by `submit_registration` (404 "Event not found" is
not modelled, the event row is passed in): 400 "Registration is not open
for this event", 400 "Registration deadline has passed for this event.",
400 validation failure carrying the full error list. -/
inductive SubmitError where
  | registrationClosed
  | deadlinePassed
  | validationFailed (errors : List VError)
  deriving DecidableEq, Repr

/-- service.py `_disable_auto_accept_if_capacity_reached`: returns early
when `not event.max_capacity` (falsy: absent or zero) or the schema is
not auto-accepting; otherwise, when the registration count has reached
max_capacity, persists the schema with auto_accept switched off
(`events_repo.update_form_schema`).  `registrationCount` is
`reg_repo.count_by_event(event.id)` at call time, supplied by the
caller.  Returns the (possibly updated) event row. -/
def disable_auto_accept_if_capacity_reached (e : Event)
    (formSchema : RegistrationFormSchema) (registrationCount : Nat) : Event :=
  match e.maxCapacity with
  | none => e
  | some m =>
    if m = 0 then e
    else if !formSchema.autoAccept then e
    else if registrationCount ≥ m then
      { e with registrationFormSchema := some { formSchema with autoAccept := false } }
    else e

/-- service.py `submit_registration` for a resolved event row:
`_get_event_or_404` published check, `_enforce_deadline` (now strictly
past the deadline fails), schema defaulting
(`event.registration_form_schema or RegistrationFormSchema()`), form
validation (any error fails with the full list), initial status
`accepted` iff auto_accept else `submitted`, row creation
(`count_by_event` afterwards sees the new row, hence
`newRegs.length`), file linking (elided: it touches neither the
registration nor the schema), and the capacity flip.  Returns the created
registration, the registration list of the event after insertion, and
the (possibly schema-updated) event row. -/
def submit_registration (e : Event) (regs : List Registration) (formData : FormData)
    (filesByField : String → List FileMeta) (now : Int) (newId : Nat) :
    Except SubmitError (Registration × List Registration × Event) :=
  if e.status ≠ "published" then
    .error .registrationClosed
  else if (match e.registrationDeadline with
           | some d => decide (now > d)
           | none => false) = true then
    .error .deadlinePassed
  else
    let formSchema := e.registrationFormSchema.getD {}
    let errors := validate_form_data formData formSchema.fields filesByField
    if errors ≠ [] then
      .error (.validationFailed errors)
    else
      let statusValue : RegStatus := if formSchema.autoAccept then .accepted else .submitted
      let registration : Registration :=
        { id := newId, eventId := e.id, status := statusValue, submittedAt := now }
      let newRegs := regs ++ [registration]
      let newEvent := disable_auto_accept_if_capacity_reached e formSchema newRegs.length
      .ok (registration, newRegs, newEvent)

/-- The effective form schema of an event:
`event.registration_form_schema or RegistrationFormSchema()`. -/
def schemaOf (e : Event) : RegistrationFormSchema :=
  e.registrationFormSchema.getD {}

/-!
Helper lemmas shared by the claim theorems.
-/

/-- On a terminal-status registration every single operation leaves the
stored row unchanged: accept and reject fail invalidState, confirm fails
(notAccessible for rejected, a time error or notEligible for
not_attending), and decline either fails or takes the idempotent branch
returning the row unchanged. -/
theorem applyOp_terminal_fixed (e : Event) (r : Registration)
    (h : terminalStatus r.status) (op : LifecycleOp) : applyOp e r op = r := by
  rcases h with h | h <;>
    rcases op with ⟨rev, now⟩ | ⟨rev, now⟩ | now | now <;>
      by_cases hep : has_event_passed now e.dateTime <;>
        by_cases hco : is_within_rsvp_cutoff now e.dateTime <;>
          simp [applyOp, accept_application, reject_application, rsvp_confirm, rsvp_decline,
            get_registration_public, get_registration_by_id, model_validate_registration,
            registrationStatusLiteral, registration_public_query, Except.map, h, hep, hco]

/-- C1: Terminal-state monotonicity — for a registration whose status is
rejected or not_attending, every lifecycle or RSVP operation, and every
sequence of such operations, either fails or leaves the stored row (in
particular its status) unchanged: the status never leaves
{rejected, not_attending}. -/
theorem C1_terminal_state_monotonicity (e : Event) (r : Registration)
    (h : terminalStatus r.status) (ops : List LifecycleOp) :
    applyOps e r ops = r ∧ terminalStatus (applyOps e r ops).status := by
  have hfix : applyOps e r ops = r := by
    induction ops with
    | nil => rfl
    | cons op rest ih =>
      simp only [applyOps, List.foldl_cons, applyOp_terminal_fixed e r h op]
      exact ih
  exact ⟨hfix, by rw [hfix]; exact h⟩

/-- C1 witness: a concrete rejected registration stays rejected across an
accept, reject, confirm, decline sequence. -/
theorem C1_terminal_state_monotonicity_witness :
    applyOps ⟨1, "published", 200000, none, none, none⟩
        ⟨5, 1, .rejected, 0, none, none, none⟩
        [.accept 7 10, .reject 7 20, .confirm 30, .decline 40] =
      ⟨5, 1, .rejected, 0, none, none, none⟩ :=
  (C1_terminal_state_monotonicity ⟨1, "published", 200000, none, none, none⟩
    ⟨5, 1, .rejected, 0, none, none, none⟩ (Or.inl rfl)
    [.accept 7 10, .reject 7 20, .confirm 30, .decline 40]).1

/-- C3: the RSVP cutoff boundary is inclusive — `is_within_rsvp_cutoff`
holds exactly when now is at or after event date minus 24 hours (86400
seconds); at exactly 24 hours before the event it holds (blocked), and
one second earlier than that it does not (allowed). -/
theorem C3_rsvp_cutoff_boundary_inclusive :
    (∀ now eventDate : Int,
        is_within_rsvp_cutoff now eventDate = true ↔ eventDate - 86400 ≤ now) ∧
    (∀ t : Int, is_within_rsvp_cutoff t (t + 86400) = true) ∧
    (∀ t : Int, is_within_rsvp_cutoff t (t + 86401) = false) := by
  refine ⟨fun now d => ?_, fun t => ?_, fun t => ?_⟩
  · simp [is_within_rsvp_cutoff]
  · simp [is_within_rsvp_cutoff]
  · simp only [is_within_rsvp_cutoff, decide_eq_false_iff_not, not_le, ge_iff_le]
    omega

/-- C2 counterexample: for a registration whose status is submitted, a
confirm call after the event date fails with notAccessible (the public
visibility filter), not with eventPassed — so "for every registration ...
the operation fails with the EventPassed error" is false as stated. -/
theorem C2_event_passed_precedence_counterexample :
    (200 : Int) > (100 : Int) ∧
    rsvp_confirm ⟨5, 1, .submitted, 0, none, none, none⟩
        ⟨1, "published", 100, none, none, none⟩ 200 = .error .notAccessible ∧
    rsvp_confirm ⟨5, 1, .submitted, 0, none, none, none⟩
        ⟨1, "published", 100, none, none, none⟩ 200 ≠ .error .eventPassed := by
  have heq : rsvp_confirm ⟨5, 1, .submitted, 0, none, none, none⟩
      ⟨1, "published", 100, none, none, none⟩ 200 = .error .notAccessible := rfl
  refine ⟨by norm_num, heq, fun h => ?_⟩
  rw [heq] at h
  simp at h

/-- C2 (amended): when now is strictly after the event date the cutoff
condition also holds and neither confirm nor decline can fail with
cutoffPassed; a registration whose status is accepted or confirmed (the
statuses that pass both the visibility filter and the response parse)
fails with eventPassed; a submitted or rejected registration fails with
notAccessible at the visibility filter; and a not_attending registration
fails with the pydantic validationError raised by the response parse
(models.py line 12), never reaching the time checks. -/
theorem C2_event_passed_precedence (r : Registration) (e : Event) (now : Int)
    (hpast : now > e.dateTime) :
    is_within_rsvp_cutoff now e.dateTime = true ∧
    rsvp_confirm r e now ≠ .error .cutoffPassed ∧
    rsvp_decline_full r e now ≠ .error .cutoffPassed ∧
    ((r.status = .accepted ∨ r.status = .confirmed) →
      rsvp_confirm r e now = .error .eventPassed ∧
      rsvp_decline_full r e now = .error .eventPassed) ∧
    ((r.status = .submitted ∨ r.status = .rejected) →
      rsvp_confirm r e now = .error .notAccessible ∧
      rsvp_decline_full r e now = .error .notAccessible) ∧
    (r.status = .notAttending →
      rsvp_confirm r e now = .error .validationError ∧
      rsvp_decline_full r e now = .error .validationError) := by
  have hep : has_event_passed now e.dateTime = true := by
    simp [has_event_passed]; omega
  have hcut : is_within_rsvp_cutoff now e.dateTime = true := by
    simp [is_within_rsvp_cutoff]; omega
  refine ⟨hcut, ?_, ?_, fun hv => ?_, fun hv => ?_, fun hv => ?_⟩
  · cases hs : r.status <;>
      simp [rsvp_confirm, get_registration_public, registration_public_query,
        model_validate_registration, registrationStatusLiteral, Except.map, hs, hep]
  · cases hs : r.status <;>
      simp [rsvp_decline_full, get_registration_public, registration_public_query,
        model_validate_registration, registrationStatusLiteral, Except.map, hs, hep]
  · rcases hv with hv | hv <;>
      refine ⟨?_, ?_⟩ <;>
        simp [rsvp_confirm, rsvp_decline_full, get_registration_public,
          registration_public_query, model_validate_registration,
          registrationStatusLiteral, Except.map, hv, hep]
  · rcases hv with hv | hv <;>
      refine ⟨?_, ?_⟩ <;>
        simp [rsvp_confirm, rsvp_decline_full, get_registration_public,
          registration_public_query, model_validate_registration,
          registrationStatusLiteral, Except.map, hv, hep]
  · refine ⟨?_, ?_⟩ <;>
      simp [rsvp_confirm, rsvp_decline_full, get_registration_public,
        registration_public_query, model_validate_registration,
        registrationStatusLiteral, Except.map, hv, hep]

/-- C2 witness: an accepted registration with the event one hundred
seconds in the past fails both confirm and decline with eventPassed. -/
theorem C2_event_passed_precedence_witness :
    rsvp_confirm ⟨5, 1, .accepted, 0, none, none, none⟩
        ⟨1, "published", 100, none, none, none⟩ 200 = .error .eventPassed ∧
    rsvp_decline_full ⟨5, 1, .accepted, 0, none, none, none⟩
        ⟨1, "published", 100, none, none, none⟩ 200 = .error .eventPassed :=
  (C2_event_passed_precedence ⟨5, 1, .accepted, 0, none, none, none⟩
    ⟨1, "published", 100, none, none, none⟩ 200 (by norm_num)).2.2.2.1 (Or.inl rfl)

/-- C4 counterexample: with the RSVP window wide open, confirm on a
registration whose status is submitted fails with notAccessible (the
public visibility filter), not with notEligible — so "any status other
than accepted or confirmed fails NotEligible" is false as stated. -/
theorem C4_confirm_idempotence_counterexample :
    rsvp_confirm ⟨5, 1, .submitted, 0, none, none, none⟩
        ⟨1, "published", 200000, none, none, none⟩ 0 = .error .notAccessible ∧
    rsvp_confirm ⟨5, 1, .submitted, 0, none, none, none⟩
        ⟨1, "published", 200000, none, none, none⟩ 0 ≠ .error .notEligible := by
  have heq : rsvp_confirm ⟨5, 1, .submitted, 0, none, none, none⟩
      ⟨1, "published", 200000, none, none, none⟩ 0 = .error .notAccessible := rfl
  refine ⟨heq, fun h => ?_⟩
  rw [heq] at h
  simp at h

/-- C4 (amended): with the event strictly more than 24 hours away, a
first confirm on an accepted registration transitions it to confirmed
(stamping confirmed_at := now) with exactly one store mutation, and a
second confirm returns the very same registration as a success with no
further mutation; an already not_attending registration fails with the
validationError raised by the response parse (models.py line 12) before
the eligibility check ever runs, while submitted and rejected
registrations fail notAccessible at the visibility filter. -/
theorem C4_confirm_idempotence (r : Registration) (e : Event) (now : Int)
    (hwin : now < e.dateTime - 86400) :
    (r.status = .accepted →
      rsvp_confirm r e now =
        .ok ({ r with status := .confirmed, confirmedAt := some now }, 1) ∧
      rsvp_confirm { r with status := .confirmed, confirmedAt := some now } e now =
        .ok ({ r with status := .confirmed, confirmedAt := some now }, 0)) ∧
    (r.status = .notAttending → rsvp_confirm r e now = .error .validationError) ∧
    ((r.status = .submitted ∨ r.status = .rejected) →
      rsvp_confirm r e now = .error .notAccessible) := by
  have hep : has_event_passed now e.dateTime = false := by
    simp [has_event_passed]; omega
  have hco : is_within_rsvp_cutoff now e.dateTime = false := by
    simp [is_within_rsvp_cutoff]; omega
  refine ⟨fun h => ⟨?_, ?_⟩, fun h => ?_, fun h => ?_⟩
  · simp [rsvp_confirm, get_registration_public, registration_public_query,
      model_validate_registration, registrationStatusLiteral, Except.map,
      confirm_registration, h, hep, hco]
  · simp [rsvp_confirm, get_registration_public, registration_public_query,
      model_validate_registration, registrationStatusLiteral, Except.map, hep, hco]
  · simp [rsvp_confirm, get_registration_public, registration_public_query,
      model_validate_registration, registrationStatusLiteral, Except.map, h]
  · rcases h with h | h <;>
      simp [rsvp_confirm, get_registration_public, registration_public_query,
        model_validate_registration, registrationStatusLiteral, Except.map, h]

/-- C4 witness: concrete double confirm on an accepted registration for
an event well outside the cutoff, yielding the same confirmed row with
one mutation and then zero. -/
theorem C4_confirm_idempotence_witness :
    rsvp_confirm ⟨5, 1, .accepted, 0, none, none, none⟩
        ⟨1, "published", 200000, none, none, none⟩ 0 =
      .ok (⟨5, 1, .confirmed, 0, none, none, some 0⟩, 1) ∧
    rsvp_confirm ⟨5, 1, .confirmed, 0, none, none, some 0⟩
        ⟨1, "published", 200000, none, none, none⟩ 0 =
      .ok (⟨5, 1, .confirmed, 0, none, none, some 0⟩, 0) :=
  (C4_confirm_idempotence ⟨5, 1, .accepted, 0, none, none, none⟩
    ⟨1, "published", 200000, none, none, none⟩ 0 (by norm_num)).1 rfl

/-- C5: the decline service logic behaves exactly as claimed — a first
decline of an accepted (or confirmed) registration yields the triple of
the updated not_attending row (decline time recorded in the confirmed_at
field), the previous status captured before mutation, and the event, with
one store mutation; a second decline is an idempotent no-op with zero
mutations reporting previousStatus not_attending.  The final conjunct
exhibits the code bug: the resulting status is outside the
RegistrationStatus Literal of models.py line 12, so the
RegistrationResponse parsing that repository.py performs on every
returned row rejects exactly the rows this flow produces. -/
theorem C5_decline_result_code_bug :
    rsvp_decline ⟨5, 1, .accepted, 0, none, none, none⟩
        ⟨1, "published", 200000, none, none, none⟩ 100 =
      .ok ((⟨5, 1, .notAttending, 0, none, none, some 100⟩, .accepted,
            ⟨1, "published", 200000, none, none, none⟩), 1) ∧
    rsvp_decline ⟨6, 1, .confirmed, 0, none, none, some 50⟩
        ⟨1, "published", 200000, none, none, none⟩ 100 =
      .ok ((⟨6, 1, .notAttending, 0, none, none, some 100⟩, .confirmed,
            ⟨1, "published", 200000, none, none, none⟩), 1) ∧
    rsvp_decline ⟨5, 1, .notAttending, 0, none, none, some 100⟩
        ⟨1, "published", 200000, none, none, none⟩ 100 =
      .ok ((⟨5, 1, .notAttending, 0, none, none, some 100⟩, .notAttending,
            ⟨1, "published", 200000, none, none, none⟩), 0) ∧
    registrationStatusLiteral .notAttending = false :=
  ⟨rfl, rfl, rfl, rfl⟩

/-- C7 counterexample: accept on a not_attending registration fails with
the validationError the fetch parse raises (models.py line 12), not with
invalidState — so "failing InvalidState otherwise" is false as stated. -/
theorem C7_review_preconditions_counterexample :
    accept_application ⟨5, 1, .notAttending, 0, none, none, some 50⟩ 7 10 =
      .error .validationError ∧
    accept_application ⟨5, 1, .notAttending, 0, none, none, some 50⟩ 7 10 ≠
      .error .invalidState := by
  have heq : accept_application ⟨5, 1, .notAttending, 0, none, none, some 50⟩ 7 10 =
      .error .validationError := rfl
  refine ⟨heq, fun h => ?_⟩
  rw [heq] at h
  simp at h

/-- C7 (amended): accept and reject require the current status to be
exactly submitted; a parseable non-submitted status (accepted, rejected,
confirmed) fails invalidState, while a not_attending row fails with the
validationError the fetch parse raises before the status check; success
transitions to accepted / rejected stamping reviewed_by and reviewed_at;
and after a successful reject, a later accept of the updated row fails
invalidState. -/
theorem C7_review_preconditions (r : Registration) (reviewerId reviewerId2 : Nat)
    (now later : Int) (h : r.status = .submitted) :
    accept_application r reviewerId now =
      .ok ({ r with status := .accepted, reviewedBy := some reviewerId, reviewedAt := some now }, 1) ∧
    reject_application r reviewerId now =
      .ok ({ r with status := .rejected, reviewedBy := some reviewerId, reviewedAt := some now }, 1) ∧
    accept_application { r with status := .rejected, reviewedBy := some reviewerId, reviewedAt := some now } reviewerId2 later =
      .error .invalidState ∧
    (∀ r2 : Registration,
      r2.status = .accepted ∨ r2.status = .rejected ∨ r2.status = .confirmed →
        accept_application r2 reviewerId now = .error .invalidState ∧
        reject_application r2 reviewerId now = .error .invalidState) ∧
    (∀ r2 : Registration, r2.status = .notAttending →
      accept_application r2 reviewerId now = .error .validationError ∧
      reject_application r2 reviewerId now = .error .validationError) := by
  refine ⟨?_, ?_, ?_, fun r2 h2 => ?_, fun r2 h2 => ⟨?_, ?_⟩⟩
  · simp [accept_application, get_registration_by_id, model_validate_registration,
      registrationStatusLiteral, update_status, h]
  · simp [reject_application, get_registration_by_id, model_validate_registration,
      registrationStatusLiteral, update_status, h]
  · simp [accept_application, get_registration_by_id, model_validate_registration,
      registrationStatusLiteral]
  · rcases h2 with h2 | h2 | h2 <;>
      refine ⟨?_, ?_⟩ <;>
        simp [accept_application, reject_application, get_registration_by_id,
          model_validate_registration, registrationStatusLiteral, h2]
  · simp [accept_application, get_registration_by_id, model_validate_registration,
      registrationStatusLiteral, h2]
  · simp [reject_application, get_registration_by_id, model_validate_registration,
      registrationStatusLiteral, h2]

/-- C7 witness: a concrete submitted registration is rejected with the
reviewer stamped, and a subsequent accept of the result fails
invalidState. -/
theorem C7_review_preconditions_witness :
    reject_application ⟨5, 1, .submitted, 0, none, none, none⟩ 7 10 =
      .ok (⟨5, 1, .rejected, 0, some 7, some 10, none⟩, 1) ∧
    accept_application ⟨5, 1, .rejected, 0, some 7, some 10, none⟩ 8 20 =
      .error .invalidState :=
  ⟨(C7_review_preconditions ⟨5, 1, .submitted, 0, none, none, none⟩ 7 8 10 20 rfl).2.1,
   (C7_review_preconditions ⟨5, 1, .submitted, 0, none, none, none⟩ 7 8 10 20 rfl).2.2.1⟩

/-- C8 counterexample: an optional text field with minLength 2 whose
submitted value is the empty string is NOT skipped — validate emits a
length error for it, contradicting "absent or empty ... is skipped
entirely ... no error of any kind". -/
theorem C8_optional_skip_counterexample :
    validate_form_data [("nick", FormValue.str "")]
        [⟨"nick", "text", false, none, [], ⟨some 2, none, none, none, none⟩⟩]
        (fun _ => []) =
      [⟨"nick", "nick must be at least 2 characters"⟩] ∧
    validate_form_data [("nick", FormValue.str "")]
        [⟨"nick", "text", false, none, [], ⟨some 2, none, none, none, none⟩⟩]
        (fun _ => []) ≠ [] := by
  refine ⟨rfl, ?_⟩
  intro h
  simp [validate_form_data, fieldErrors, is_missing_required, validate_text,
    FormData.get, List.find?] at h

/-- C8 (amended): a not-required field whose value is absent (Python
None through dict.get) and which has no uploaded files is skipped
entirely by validate — removing it from the schema does not change the
output, and it contributes no error; an empty checkbox list also yields
no error (the validator runs and passes vacuously).  Empty strings are
not skipped and flow into the type validators. -/
theorem C8_optional_field_skip (fd : FormData) (files : String → List FileMeta)
    (fs1 fs2 : List FieldDef) (f : FieldDef) (hreq : f.required = false)
    (hval : fd.get f.id = none) (hfiles : files f.id = []) :
    validate_form_data fd (fs1 ++ f :: fs2) files = validate_form_data fd (fs1 ++ fs2) files ∧
    fieldErrors fd files f = [] ∧
    (∀ fd2 : FormData, fd2.get f.id = some (.list []) → f.ftype = "checkbox" →
      fieldErrors fd2 files f = []) := by
  have hskip : fieldErrors fd files f = [] := by
    simp [fieldErrors, is_missing_required, hreq, hval, hfiles]
  refine ⟨?_, hskip, fun fd2 h2 hcb => ?_⟩
  · simp [validate_form_data, List.flatMap_append, hskip]
  · simp [fieldErrors, is_missing_required, hreq, h2, hcb, pyFalsy, validate_checkboxes]

/-- C8 witness: a concrete schema in which the optional field is absent
from the form data — validate behaves as if the field were not in the
schema, and the field contributes no error. -/
theorem C8_optional_field_skip_witness :
    validate_form_data [("fullName", FormValue.str "Ada")]
        [⟨"fullName", "text", true, none, [], ⟨none, none, none, none, none⟩⟩,
         ⟨"nick", "text", false, none, [], ⟨some 2, none, none, none, none⟩⟩]
        (fun _ => []) =
      validate_form_data [("fullName", FormValue.str "Ada")]
        [⟨"fullName", "text", true, none, [], ⟨none, none, none, none, none⟩⟩]
        (fun _ => []) :=
  (C8_optional_field_skip [("fullName", FormValue.str "Ada")] (fun _ => [])
    [⟨"fullName", "text", true, none, [], ⟨none, none, none, none, none⟩⟩] []
    ⟨"nick", "text", false, none, [], ⟨some 2, none, none, none, none⟩⟩
    rfl rfl rfl).1

/-- C9 counterexample: pattern "b" against value "ab" — a regex search
finds a match anywhere (reSearchSpec is true), yet the source emits the
invalid-format error because re.match anchors at the start of the value;
so "passes the pattern check iff the pattern matches ... a match anywhere
in the string suffices" is false. -/
theorem C9_pattern_search_counterexample :
    reSearchSpec [RegexToken.lit 'b'] "ab" = true ∧
    validate_text ⟨"code", "text", true, none, [], ⟨none, none, some [RegexToken.lit 'b'], none, none⟩⟩
        (some (FormValue.str "ab")) =
      [⟨"code", "code is in an invalid format"⟩] :=
  ⟨rfl, rfl⟩

/-- C9 (amended): for a text field with a non-empty pattern, the output
of the text validator is the concatenation of an independent error entry
per violated constraint — the minLength entry (when set and violated),
the maxLength entry (when set and violated), then the pattern entry,
emitted iff the pattern does NOT match anchored at the start of the
value (Python re.match, not re.search). -/
theorem C9_pattern_check_semantics (f : FieldDef) (s : String) (p : List RegexToken)
    (hp : f.validation.pattern = some p) (hne : p ≠ []) :
    validate_text f (some (FormValue.str s)) =
      (match f.validation.minLength with
       | some minLen =>
         if s.length < minLen then
           [⟨f.id, f.msgLabel ++ " must be at least " ++ toString minLen ++ " characters"⟩]
         else []
       | none => []) ++
      (match f.validation.maxLength with
       | some maxLen =>
         if s.length > maxLen then
           [⟨f.id, f.msgLabel ++ " must be at most " ++ toString maxLen ++ " characters"⟩]
         else []
       | none => []) ++
      (if reMatch p s then []
       else [⟨f.id, f.msgLabel ++ " is in an invalid format"⟩]) := by
  by_cases hm : reMatch p s <;> simp [validate_text, hp, hne, hm]

/-- C9 witness: a field with minLength 5 and pattern "a" on value "ab" —
the pattern matches at the start, so only the independent minLength
entry is produced. -/
theorem C9_pattern_check_semantics_witness :
    validate_text ⟨"code", "text", true, none, [],
        ⟨some 5, none, some [RegexToken.lit 'a'], none, none⟩⟩
        (some (FormValue.str "ab")) =
      [⟨"code", "code must be at least 5 characters"⟩] := by
  have h := C9_pattern_check_semantics
    ⟨"code", "text", true, none, [], ⟨some 5, none, some [RegexToken.lit 'a'], none, none⟩⟩
    "ab" [RegexToken.lit 'a'] rfl (by simp)
  simpa using h

/-- C10 counterexample: decline on an already-not_attending registration
inside the 24-hour window fails with the validationError of the fetch
parse (models.py line 12), not with cutoffPassed — the time gates are
never reached for such rows, so the claim is false for the decline
half. -/
theorem C10_time_gates_dominate_idempotence_counterexample :
    rsvp_decline_full ⟨5, 1, .notAttending, 0, none, none, some 0⟩
        ⟨1, "published", 100000, none, none, none⟩ 50000 = .error .validationError ∧
    rsvp_decline_full ⟨5, 1, .notAttending, 0, none, none, some 0⟩
        ⟨1, "published", 100000, none, none, none⟩ 50000 ≠ .error .cutoffPassed := by
  have heq : rsvp_decline_full ⟨5, 1, .notAttending, 0, none, none, some 0⟩
      ⟨1, "published", 100000, none, none, none⟩ 50000 = .error .validationError := rfl
  refine ⟨heq, fun h => ?_⟩
  rw [heq] at h
  simp at h

/-- C10 (amended): in rsvp_confirm the time gates are evaluated before
the idempotent-status check — confirm on an already-confirmed
registration fails eventPassed when the event has passed and
cutoffPassed when only the cutoff holds, and the idempotent no-op is
reachable only while now is strictly before the cutoff instant.  For
decline, an already-not_attending registration never reaches the time
gates at all: the public fetch response parse raises validationError
regardless of the window (and confirm on such a row fails the same way),
so the decline idempotent no-op is unreachable outright. -/
theorem C10_time_gates_dominate_idempotence (r : Registration) (e : Event) (now : Int) :
    (r.status = .confirmed →
      (now > e.dateTime → rsvp_confirm r e now = .error .eventPassed) ∧
      (now ≤ e.dateTime → e.dateTime - 86400 ≤ now →
        rsvp_confirm r e now = .error .cutoffPassed) ∧
      (rsvp_confirm r e now = .ok (r, 0) → now < e.dateTime - 86400)) ∧
    (r.status = .notAttending →
      rsvp_decline_full r e now = .error .validationError ∧
      rsvp_confirm r e now = .error .validationError) := by
  refine ⟨fun h => ⟨fun hp => ?_, fun hnp hc => ?_, fun hok => ?_⟩, fun h => ⟨?_, ?_⟩⟩
  · have hep : has_event_passed now e.dateTime = true := by
      simp [has_event_passed]; omega
    simp [rsvp_confirm, get_registration_public, registration_public_query,
      model_validate_registration, registrationStatusLiteral, Except.map, h, hep]
  · have hep : has_event_passed now e.dateTime = false := by
      simp [has_event_passed]; omega
    have hco : is_within_rsvp_cutoff now e.dateTime = true := by
      simp [is_within_rsvp_cutoff]; omega
    simp [rsvp_confirm, get_registration_public, registration_public_query,
      model_validate_registration, registrationStatusLiteral, Except.map, h, hep, hco]
  · by_cases hep : has_event_passed now e.dateTime <;>
      by_cases hco : is_within_rsvp_cutoff now e.dateTime <;>
        simp [rsvp_confirm, get_registration_public, registration_public_query,
          model_validate_registration, registrationStatusLiteral, Except.map,
          h, hep, hco] at hok ⊢ <;>
          simp [is_within_rsvp_cutoff] at hco <;> omega
  · simp [rsvp_decline_full, get_registration_public, registration_public_query,
      model_validate_registration, registrationStatusLiteral, Except.map, h]
  · simp [rsvp_confirm, get_registration_public, registration_public_query,
      model_validate_registration, registrationStatusLiteral, Except.map, h]

/-- C10 witness: an already-confirmed registration fails eventPassed
after the event and cutoffPassed inside the window; an
already-not_attending registration fails validationError inside the
window. -/
theorem C10_time_gates_dominate_idempotence_witness :
    rsvp_confirm ⟨5, 1, .confirmed, 0, none, none, some 0⟩
        ⟨1, "published", 100, none, none, none⟩ 200 = .error .eventPassed ∧
    rsvp_confirm ⟨5, 1, .confirmed, 0, none, none, some 0⟩
        ⟨1, "published", 100000, none, none, none⟩ 50000 = .error .cutoffPassed ∧
    rsvp_decline_full ⟨5, 1, .notAttending, 0, none, none, some 0⟩
        ⟨1, "published", 100000, none, none, none⟩ 50000 = .error .validationError :=
  ⟨((C10_time_gates_dominate_idempotence ⟨5, 1, .confirmed, 0, none, none, some 0⟩
      ⟨1, "published", 100, none, none, none⟩ 200).1 rfl).1 (by norm_num),
   ((C10_time_gates_dominate_idempotence ⟨5, 1, .confirmed, 0, none, none, some 0⟩
      ⟨1, "published", 100000, none, none, none⟩ 50000).1 rfl).2.1 (by norm_num) (by norm_num),
   ((C10_time_gates_dominate_idempotence ⟨5, 1, .notAttending, 0, none, none, some 0⟩
      ⟨1, "published", 100000, none, none, none⟩ 50000).2 rfl).1⟩

/-- C6: initial status is accepted iff the schema has auto_accept (else
submitted); and when max_capacity is set, auto_accept is on, and the
post-submission count reaches capacity, the submission that fills the
last slot is still accepted while the persisted schema has auto_accept
flipped off, so the next submission (same fields, auto_accept now false)
comes out submitted, not accepted. -/
theorem C6_capacity_policy (e : Event) (regs : List Registration) (fd fd2 : FormData)
    (files : String → List FileMeta) (now now2 : Int) (id1 id2 : Nat) (m : Nat)
    (hpub : e.status = "published") (hdl : e.registrationDeadline = none)
    (hcap : e.maxCapacity = some m) (hm : 0 < m)
    (haa : (schemaOf e).autoAccept = true) (hfull : regs.length + 1 ≥ m)
    (hval1 : validate_form_data fd (schemaOf e).fields files = [])
    (hval2 : validate_form_data fd2 (schemaOf e).fields files = []) :
    (∀ (e3 : Event) (regs3 : List Registration) (fd3 : FormData)
        (files3 : String → List FileMeta) (n3 : Int) (nid : Nat)
        (rg : Registration) (rs : List Registration) (ev3 : Event),
      submit_registration e3 regs3 fd3 files3 n3 nid = .ok (rg, rs, ev3) →
        rg.status = if (schemaOf e3).autoAccept then RegStatus.accepted else RegStatus.submitted) ∧
    submit_registration e regs fd files now id1 =
      .ok (⟨id1, e.id, .accepted, now, none, none, none⟩,
           regs ++ [⟨id1, e.id, .accepted, now, none, none, none⟩],
           { e with registrationFormSchema := some { schemaOf e with autoAccept := false } }) ∧
    submit_registration { e with registrationFormSchema := some { schemaOf e with autoAccept := false } } (regs ++ [⟨id1, e.id, .accepted, now, none, none, none⟩]) fd2 files now2 id2 =
      .ok (⟨id2, e.id, .submitted, now2, none, none, none⟩,
           regs ++ [⟨id1, e.id, .accepted, now, none, none, none⟩] ++ [⟨id2, e.id, .submitted, now2, none, none, none⟩],
           { e with registrationFormSchema := some { schemaOf e with autoAccept := false } }) := by
  have hm0 : m ≠ 0 := by omega
  refine ⟨?_, ?_, ?_⟩
  · intro e3 regs3 fd3 files3 n3 nid rg rs ev3 h
    simp only [submit_registration] at h
    split_ifs at h with h1 h2 h3 h4 <;>
      simp only [Except.ok.injEq, Prod.mk.injEq] at h <;>
        rw [← h.1] <;> simp [schemaOf, h4]
  · simp only [submit_registration, disable_auto_accept_if_capacity_reached, schemaOf] at *
    simp [hpub, hdl, hcap, haa, hval1, hm0, hfull]
  · simp only [submit_registration, disable_auto_accept_if_capacity_reached, schemaOf] at *
    simp [hpub, hdl, hcap, haa, hval2, hm0, hfull]

/-- C6 witness: a published event with max_capacity 1 and an
auto-accepting one-field schema — the first submission is accepted and
flips auto_accept off; the second submission is submitted. -/
theorem C6_capacity_policy_witness :
    submit_registration
        ⟨1, "published", 1000000, none, some 1, some ⟨true, [⟨"fullName", "text", true, none, [], ⟨none, none, none, none, none⟩⟩]⟩⟩
        [] [("fullName", FormValue.str "Ada")] (fun _ => []) 0 10 =
      .ok (⟨10, 1, .accepted, 0, none, none, none⟩,
           [⟨10, 1, .accepted, 0, none, none, none⟩],
           ⟨1, "published", 1000000, none, some 1, some ⟨false, [⟨"fullName", "text", true, none, [], ⟨none, none, none, none, none⟩⟩]⟩⟩) ∧
    submit_registration
        ⟨1, "published", 1000000, none, some 1, some ⟨false, [⟨"fullName", "text", true, none, [], ⟨none, none, none, none, none⟩⟩]⟩⟩
        [⟨10, 1, .accepted, 0, none, none, none⟩] [("fullName", FormValue.str "Bob")] (fun _ => []) 5 11 =
      .ok (⟨11, 1, .submitted, 5, none, none, none⟩,
           [⟨10, 1, .accepted, 0, none, none, none⟩, ⟨11, 1, .submitted, 5, none, none, none⟩],
           ⟨1, "published", 1000000, none, some 1, some ⟨false, [⟨"fullName", "text", true, none, [], ⟨none, none, none, none, none⟩⟩]⟩⟩) := by
  have h := C6_capacity_policy
    ⟨1, "published", 1000000, none, some 1, some ⟨true, [⟨"fullName", "text", true, none, [], ⟨none, none, none, none, none⟩⟩]⟩⟩
    [] [("fullName", FormValue.str "Ada")] [("fullName", FormValue.str "Bob")]
    (fun _ => []) 0 5 10 11 1 rfl rfl rfl (by norm_num) rfl (by simp) rfl rfl
  exact ⟨h.2.1, h.2.2⟩
